import Mathlib

/-!
Verification of the single-domain SEO crawler (`src/main.py`).

The development shallowly embeds the `SEOCrawler` class: URLs are
structured values (scheme, netloc, path) mirroring `urllib.parse`
decomposition, the parsed page (`BeautifulSoup` result) is a record of
exactly the fields the analyzer reads, sites are finite association
lists from URL to fetch outcome, and the crawl loop of
`SEOCrawler.crawl` becomes a state-transition function `iterBody`
together with a nondeterministic step relation `Step` (the Python
frontier is a set with arbitrary `pop` order).
-/

namespace SeoCrawler

/-- Prefix test on character lists (Python `str.startswith`, used to
build the substring test that embeds Python's `in` operator). -/
def charsStartWith : List Char → List Char → Bool
  | _, [] => true
  | [], _ :: _ => false
  | c :: cs, d :: ds => c == d && charsStartWith cs ds

/-- Substring test on character lists. -/
def charsContain : List Char → List Char → Bool
  | [], pat => pat.isEmpty
  | c :: rest, pat => charsStartWith (c :: rest) pat || charsContain rest pat

/-- Python's `pat in s` on strings (substring containment). -/
def strContains (s pat : String) : Bool :=
  charsContain s.data pat.data

/-- Python's `s.endswith(pat)` (used only to state the spec's
"path does not end in a denylisted extension" wording). -/
def strEndsWith (s pat : String) : Bool :=
  charsStartWith s.data.reverse pat.data.reverse

/-- Python's `str.strip()`: remove leading and trailing whitespace. -/
def pyStrip (s : String) : String :=
  String.mk (((s.data.dropWhile Char.isWhitespace).reverse.dropWhile
    Char.isWhitespace).reverse)

/-- Python's `str.lower()` (applied to the Content-Type header). -/
def pyLower (s : String) : String :=
  String.mk (s.data.map Char.toLower)

/-- A URL as decomposed by `urllib.parse.urlparse`: scheme, network
location (host), and path.  Query and fragment parts play no role in
any claim and are folded into `path`. -/
structure Url where
  scheme : String
  netloc : String
  path : String
deriving DecidableEq

/-- Render a `Url` back to the string form the Python code manipulates
(`urllib.parse.urlunparse` composition). -/
def urlString (u : Url) : String :=
  (if u.scheme = "" then "" else u.scheme ++ ":") ++
  (if u.netloc = "" then "" else "//" ++ u.netloc) ++ u.path

/-- The directory part of a path: everything up to and including the
last slash; `/` when the path has no slash (matching how
`urllib.parse.urljoin` resolves a bare relative segment against a
netloc-rooted base). -/
def dirOf (p : String) : String :=
  let kept := (p.data.reverse.dropWhile (fun c => !(c == '/'))).reverse
  if kept.isEmpty then "/" else String.mk kept

/-- `urllib.parse.urljoin base rel` on structured URLs: an absolute
`rel` wins; a netloc-only `rel` keeps the base scheme; an empty `rel`
is the base; a root-relative path replaces the base path; otherwise the
relative path is resolved against the directory of the base path. -/
def urljoin (base rel : Url) : Url :=
  if rel.scheme ≠ "" then rel
  else if rel.netloc ≠ "" then { scheme := base.scheme, netloc := rel.netloc, path := rel.path }
  else if rel.path = "" then base
  else if strStartsWithSlash rel.path then { base with path := rel.path }
  else { base with path := dirOf base.path ++ rel.path }
where
  strStartsWithSlash (p : String) : Bool :=
    charsStartWith p.data ['/']

/-- The fixed denylist of non-HTML extensions from
`SEOCrawler._is_valid_url`. -/
def denylist : List String :=
  [".pdf", ".jpg", ".png", ".gif", ".css", ".js"]

/-- `SEOCrawler._is_valid_url` (src/main.py lines 40-50): same netloc
as the seed, scheme http or https, and no denylisted extension occurs
as a substring of the full URL string (`ext in url`). -/
def is_valid_url (base_domain : String) (u : Url) : Bool :=
  u.netloc == base_domain &&
  (u.scheme == "http" || u.scheme == "https") &&
  !(denylist.any (fun ext => strContains (urlString u) ext))

/-- Modelled from the spec: the spec's scoping rule, which instead of a
substring test requires that the *path* does not *end* in a denylisted
extension.  Used only to compare the spec's wording against
`is_valid_url`. -/
def specInScope (base_domain : String) (u : Url) : Bool :=
  u.netloc == base_domain &&
  (u.scheme == "http" || u.scheme == "https") &&
  !(denylist.any (fun ext => strEndsWith u.path ext))

/-- The parsed document as consumed by `_get_page_seo_issues`: exactly
the fields the analyzer reads from the BeautifulSoup object.  `title`
is the text of the `<title>` tag (`none` when absent); `metaDesc` is
the `content` attribute of the description meta tag (`none` when the
tag is absent, `some ""` when present without content); `h1`–`h6` are
the lengths of the corresponding `find_all` results; `links` are the
parsed `href` attributes of anchors with an href; `imgAlts` are the
`alt` attributes of the images. -/
structure Soup where
  title : Option String
  metaDesc : Option String
  h1 : Nat
  h2 : Nat
  h3 : Nat
  h4 : Nat
  h5 : Nat
  h6 : Nat
  links : List Url
  imgAlts : List (Option String)
deriving DecidableEq

/-- `headings[f'h{i}']` lookup by level. -/
def Soup.hcount (d : Soup) : Nat → Nat
  | 1 => d.h1
  | 2 => d.h2
  | 3 => d.h3
  | 4 => d.h4
  | 5 => d.h5
  | 6 => d.h6
  | _ => 0

/-- Title rules of `_get_page_seo_issues` (lines 63-67). -/
def titleIssues (title : Option String) : List String :=
  match title with
  | none => ["Missing Title Tag"]
  | some t =>
    if pyStrip t = "" then ["Missing Title Tag"]
    else if t.length < 10 ∨ 60 < t.length then
      ["Title Tag Length Issue (Current: " ++ toString t.length ++ " chars)"]
    else []

/-- Meta-description rules (lines 69-73). -/
def metaIssues (metaDesc : Option String) : List String :=
  match metaDesc with
  | none => ["Missing Meta Description"]
  | some c =>
    if pyStrip c = "" then ["Missing Meta Description"]
    else if c.length < 50 ∨ 160 < c.length then
      ["Meta Description Length Issue (Current: " ++ toString c.length ++ " chars)"]
    else []

/-- The heading-hierarchy gap loop (lines 81-83): for each level 1..5,
a gap issue when that level is populated and the next is empty. -/
def headingGapIssues (d : Soup) : List String :=
  (List.range' 1 5).filterMap (fun i =>
    if d.hcount i ≠ 0 ∧ d.hcount (i + 1) = 0 then
      some ("Potential Heading Hierarchy Issue (Missing H" ++ toString (i + 1) ++ ")")
    else none)

/-- All heading rules (lines 75-83): H1 presence/multiplicity followed
by the hierarchy gap loop. -/
def headingIssuesOf (d : Soup) : List String :=
  (if d.h1 = 0 then ["No H1 Tag Found"]
   else if 1 < d.h1 then ["Multiple H1 Tags"]
   else []) ++ headingGapIssues d

/-- Line 86: hrefs whose *unresolved* netloc differs from the seed
host (`urlparse(link['href']).netloc != self.base_domain`). -/
def rawExternalCount (base_domain : String) (d : Soup) : Nat :=
  (d.links.filter (fun h => h.netloc != base_domain)).length

/-- Modelled from the spec: the spec's external-link condition, which
resolves each href against the page URL before comparing hosts.  Used
only to compare the spec's wording against `linkIssuesOf`. -/
def specExternalCount (page : Url) (d : Soup) : Nat :=
  (d.links.filter (fun h => (urljoin page h).netloc != page.netloc)).length

/-- Link rule (lines 85-88). -/
def linkIssuesOf (base_domain : String) (d : Soup) : List String :=
  if 10 < rawExternalCount base_domain d then
    ["High Number of External Links (" ++ toString (rawExternalCount base_domain d) ++ ")"]
  else []

/-- Python truthiness of `img.get('alt')`: absent or empty is falsy. -/
def altTruthy : Option String → Bool
  | none => false
  | some s => s != ""

/-- Image rule (lines 90-93). -/
def imageIssuesOf (d : Soup) : List String :=
  let missing := (d.imgAlts.filter (fun a => !altTruthy a)).length
  if missing ≠ 0 then [toString missing ++ " Images Missing Alt Text"] else []

/-- A value of the per-page issues dict: the `'URL'` entry holds a
string, every other entry holds a list of issue strings. -/
inductive IssueVal where
  | urlV (s : String)
  | listV (l : List String)
deriving DecidableEq

/-- Python truthiness of a dict value, as used by the
`{k: v for k, v in seo_issues.items() if v}` filter. -/
def IssueVal.truthy : IssueVal → Bool
  | .urlV s => s != ""
  | .listV l => !l.isEmpty

/-- `SEOCrawler._get_page_seo_issues` (lines 52-96): build the
insertion-ordered dict and drop falsy entries. -/
def get_page_seo_issues (base_domain url : String) (d : Soup) : List (String × IssueVal) :=
  ([("URL", IssueVal.urlV url),
    ("Title Issues", IssueVal.listV (titleIssues d.title)),
    ("Meta Description Issues", IssueVal.listV (metaIssues d.metaDesc)),
    ("Heading Structure Issues", IssueVal.listV (headingIssuesOf d)),
    ("Link Issues", IssueVal.listV (linkIssuesOf base_domain d)),
    ("Image SEO Issues", IssueVal.listV (imageIssuesOf d))]).filter
    (fun kv => kv.2.truthy)

/-- Outcome of `session.get` on a URL: a network error
(`requests.RequestException`) or a response with a Content-Type header
and a parsed body. -/
inductive FetchResult where
  | err
  | ok (contentType : String) (soup : Soup)
deriving DecidableEq

/-- A finite site: association list from URL to fetch outcome. -/
abbrev Site : Type := List (Url × FetchResult)

/-- Fetching a URL against a finite site; URLs the site does not know
behave as network errors. -/
def fetchSite (site : Site) (u : Url) : FetchResult :=
  (List.lookup u site).getD .err

/-- Line 116: `'text/html' in response.headers.get('Content-Type', '').lower()`. -/
def isHtmlContentType (ct : String) : Bool :=
  strContains (pyLower ct) "text/html"

/-- The mutable state of `SEOCrawler.crawl`: `visited_urls`,
`to_visit_urls`, `seo_results`, plus a ghost trace `fetchLog` recording
every URL on which `session.get` is performed, in order. -/
structure CrawlState where
  visited : List Url
  frontier : List Url
  results : List (List (String × IssueVal))
  fetchLog : List Url
deriving DecidableEq

/-- State at entry of the loop: `visited_urls = set()`,
`to_visit_urls = {domain}` (lines 34-35). -/
def initState (domain : Url) : CrawlState :=
  { visited := [], frontier := [domain], results := [], fetchLog := [] }

/-- The link-offering loop (lines 126-131): for each href, resolve it
against the current URL and add it to the frontier when it is valid and
in neither `visited_urls` nor the (growing) `to_visit_urls`. -/
def offerLinks (base_domain : String) (cur : Url) (visited : List Url) :
    List Url → List Url → List Url
  | frontier, [] => frontier
  | frontier, href :: rest =>
    let full := urljoin cur href
    offerLinks base_domain cur visited
      (if is_valid_url base_domain full = true ∧ full ∉ visited ∧ full ∉ frontier
       then frontier ++ [full] else frontier) rest

/-- One iteration of the `while` loop of `SEOCrawler.crawl`
(lines 107-136), given the URL `u` popped from the frontier: skip if
already visited; otherwise fetch; on network error or non-HTML
Content-Type just continue; otherwise analyze, append the (truthy)
record, mark visited, and offer every resolved link. -/
def iterBody (base_domain : String) (site : Site) (u : Url) (s : CrawlState) :
    CrawlState :=
  let frontier1 := s.frontier.erase u
  if u ∈ s.visited then { s with frontier := frontier1 }
  else
    match fetchSite site u with
    | .err => { s with frontier := frontier1, fetchLog := s.fetchLog ++ [u] }
    | .ok ct soup =>
      if isHtmlContentType ct = false then
        { s with frontier := frontier1, fetchLog := s.fetchLog ++ [u] }
      else
        let record := get_page_seo_issues base_domain (urlString u) soup
        let visited1 := u :: s.visited
        { visited := visited1,
          frontier := offerLinks base_domain u visited1 frontier1 soup.links,
          results := if record.isEmpty then s.results else s.results ++ [record],
          fetchLog := s.fetchLog ++ [u] }

/-- The loop guard (line 107):
`while self.to_visit_urls and len(self.visited_urls) < self.max_pages`. -/
def loopGuard (maxPages : Nat) (s : CrawlState) : Prop :=
  s.frontier ≠ [] ∧ s.visited.length < maxPages

instance (maxPages : Nat) (s : CrawlState) : Decidable (loopGuard maxPages s) :=
  inferInstanceAs (Decidable (_ ∧ _))

/-- One nondeterministic step of the crawl loop: the guard holds and
some member of the frontier is popped and processed (the Python
frontier is a set whose `pop` order is arbitrary). -/
def Step (base_domain : String) (site : Site) (maxPages : Nat)
    (s t : CrawlState) : Prop :=
  s.frontier ≠ [] ∧ s.visited.length < maxPages ∧
    ∃ u ∈ s.frontier, t = iterBody base_domain site u s

/-- A deterministic, fuel-bounded run of the loop, resolving the
arbitrary set-pop order by always popping the head of the frontier. -/
def crawlRun (base_domain : String) (site : Site) (maxPages : Nat) :
    Nat → CrawlState → CrawlState
  | 0, s => s
  | fuel + 1, s =>
    match s.frontier with
    | [] => s
    | u :: _ =>
      if s.visited.length < maxPages then
        crawlRun base_domain site maxPages fuel (iterBody base_domain site u s)
      else s

/-- Number of links exposed by one fetch outcome. -/
def linksOf : FetchResult → Nat
  | .err => 0
  | .ok _ d => d.links.length

/-- Upper bound on the number of links of any page of the site. -/
def maxLinks (site : Site) : Nat :=
  site.foldr (fun p acc => max (linksOf p.2) acc) 0

/-- Termination measure for the crawl loop: unvisited page budget,
weighted by the largest possible frontier growth of one step, plus the
frontier size. -/
def cMeasure (site : Site) (maxPages : Nat) (s : CrawlState) : Nat :=
  (maxPages - s.visited.length) * (maxLinks site + 1) + s.frontier.length

/-- The disjointness invariant of the frontier and visited sets
(the frontier also stays duplicate-free, as a Python set is). -/
def DisjInv (s : CrawlState) : Prop :=
  s.frontier.Nodup ∧ ∀ u ∈ s.visited, u ∉ s.frontier

instance (s : CrawlState) : Decidable (DisjInv s) :=
  inferInstanceAs (Decidable (_ ∧ _))

/-! Concrete instances used by the counterexamples and witnesses below:
a seed page on host `h` and a handful of small pages. -/

/-- Seed URL `http://h/`. -/
def urlS : Url := ⟨"http", "h", "/"⟩

/-- Same-host URL `http://h/a`. -/
def urlA : Url := ⟨"http", "h", "/a"⟩

/-- Same-host URL `http://h/b`. -/
def urlB : Url := ⟨"http", "h", "/b"⟩

/-- Root-relative href `/a` as parsed by urlparse. -/
def relA : Url := ⟨"", "", "/a"⟩

/-- Root-relative href `/b` as parsed by urlparse. -/
def relB : Url := ⟨"", "", "/b"⟩

/-- A page body with no SEO issues at all (title of 10 chars, meta
description of 50 chars, one heading of each level, no images) and the
given anchor hrefs. -/
def soupMk (ls : List Url) : Soup :=
  { title := some "0123456789", metaDesc := some (String.mk (List.replicate 50 'x')),
    h1 := 1, h2 := 1, h3 := 1, h4 := 1, h5 := 1, h6 := 1, links := ls, imgAlts := [] }

/-- A site where the seed links to `/a` and `/b`, fetching `/a` raises
a network error, and page `/b` links back to `/a`. -/
def siteRetry : Site :=
  [(urlS, .ok "text/html" (soupMk [relA, relB])), (urlB, .ok "text/html" (soupMk [relA]))]

/-- Same-host URL `http://h/d.json`: its path ends in `.json`, which is
not in the denylist, but `.js` occurs inside the URL string. -/
def urlJson : Url := ⟨"http", "h", "/d.json"⟩

/-- Root-relative href `/d.json`. -/
def relJson : Url := ⟨"", "", "/d.json"⟩

/-- A site whose seed page links only to `/d.json`. -/
def siteJson : Site := [(urlS, .ok "text/html" (soupMk [relJson]))]

/-- A page with eleven relative anchors (raw netloc empty, resolved
netloc equal to the page host). -/
def soupExt : Soup := soupMk (List.replicate 11 relA)

/-- A page with one heading at each of the levels H1, H2, H3 and none
at H4, H5, H6. -/
def soupHead : Soup := { soupMk [] with h4 := 0, h5 := 0, h6 := 0 }

/-- A page with H1 and H3 but no H2. -/
def soupH2gap : Soup := { soupMk [] with h2 := 0 }

/-- Root-relative href `/p<i>`. -/
def relP (i : Nat) : Url := ⟨"", "", "/p" ++ toString i⟩

/-- Same-host URL `http://h/p<i>`. -/
def urlP (i : Nat) : Url := ⟨"http", "h", "/p" ++ toString i⟩

/-- A site whose seed page links to eleven distinct pages, each of
which is served with Content-Type `application/pdf`. -/
def sitePdf : Site :=
  (urlS, .ok "text/html" (soupMk ((List.range 11).map relP))) ::
    (List.range 11).map (fun i => (urlP i, .ok "application/pdf" (soupMk [])))

/-! Helper lemmas about the link-offering loop, the site lookup, and
one crawl step. -/

/-- Membership in the frontier produced by the link-offering loop: a
URL is there iff it was already in the frontier, or it is the
resolution of one of the hrefs, is valid, and is not visited (the
`not already in to_visit_urls` test only prevents duplicates, so it
does not show up in the membership characterisation). -/
theorem offerLinks_mem (base : String) (cur : Url) (vis : List Url)
    (hs : List Url) (fr : List Url) (v : Url) :
    v ∈ offerLinks base cur vis fr hs ↔
      v ∈ fr ∨ (is_valid_url base v = true ∧ v ∉ vis ∧
        ∃ h ∈ hs, urljoin cur h = v) := by
  induction hs generalizing fr with
  | nil => simp [offerLinks]
  | cons h0 rest ih =>
    rw [offerLinks, ih]
    by_cases hc : is_valid_url base (urljoin cur h0) = true ∧
        urljoin cur h0 ∉ vis ∧ urljoin cur h0 ∉ fr
    · rw [if_pos hc]
      obtain ⟨hv, hnv, hnf⟩ := hc
      simp only [List.mem_append, List.mem_cons, List.not_mem_nil, or_false]
      constructor
      · rintro (⟨hf | rfl⟩ | ⟨ha, hb, w, hw, rfl⟩)
        · exact Or.inl hf
        · exact Or.inr ⟨hv, hnv, h0, Or.inl rfl, rfl⟩
        · exact Or.inr ⟨ha, hb, w, Or.inr hw, rfl⟩
      · rintro (hf | ⟨ha, hb, w, (rfl | hw), rfl⟩)
        · exact Or.inl (Or.inl hf)
        · exact Or.inl (Or.inr rfl)
        · exact Or.inr ⟨ha, hb, w, hw, rfl⟩
    · rw [if_neg hc]
      push_neg at hc
      simp only [List.mem_cons]
      constructor
      · rintro (hf | ⟨ha, hb, w, hw, rfl⟩)
        · exact Or.inl hf
        · exact Or.inr ⟨ha, hb, w, Or.inr hw, rfl⟩
      · rintro (hf | ⟨ha, hb, w, (rfl | hw), rfl⟩)
        · exact Or.inl hf
        · exact Or.inl (hc ha hb)
        · exact Or.inr ⟨ha, hb, w, hw, rfl⟩

/-- The link-offering loop preserves duplicate-freedom of the
frontier, thanks to its `not already in to_visit_urls` test. -/
theorem offerLinks_nodup (base : String) (cur : Url) (vis : List Url)
    (hs : List Url) (fr : List Url) (hfr : fr.Nodup) :
    (offerLinks base cur vis fr hs).Nodup := by
  induction hs generalizing fr with
  | nil => simpa [offerLinks] using hfr
  | cons h0 rest ih =>
    rw [offerLinks]
    by_cases hc : is_valid_url base (urljoin cur h0) = true ∧
        urljoin cur h0 ∉ vis ∧ urljoin cur h0 ∉ fr
    · rw [if_pos hc]
      exact ih _ (by simp [List.nodup_append, hfr, hc.2.2])
    · rw [if_neg hc]
      exact ih _ hfr

/-- The link-offering loop adds at most one frontier entry per href. -/
theorem offerLinks_length (base : String) (cur : Url) (vis : List Url)
    (hs : List Url) (fr : List Url) :
    (offerLinks base cur vis fr hs).length ≤ fr.length + hs.length := by
  induction hs generalizing fr with
  | nil => simp [offerLinks]
  | cons h0 rest ih =>
    rw [offerLinks]
    simp only [List.length_cons]
    by_cases hc : is_valid_url base (urljoin cur h0) = true ∧
        urljoin cur h0 ∉ vis ∧ urljoin cur h0 ∉ fr
    · rw [if_pos hc]
      have := ih (fr ++ [urljoin cur h0])
      simp only [List.length_append, List.length_singleton] at this
      omega
    · rw [if_neg hc]
      have := ih fr
      omega

/-- Any page stored in the site has at most `maxLinks site` links. -/
theorem mem_linksOf_le (site : Site) (u : Url) (r : FetchResult)
    (h : (u, r) ∈ site) : linksOf r ≤ maxLinks site := by
  induction site with
  | nil => cases h
  | cons p rest ih =>
    have hmax : maxLinks (p :: rest) = max (linksOf p.2) (maxLinks rest) := rfl
    rcases List.mem_cons.mp h with heq | hmem
    · rw [hmax, ← heq]
      exact le_max_left _ _
    · rw [hmax]
      exact le_trans (ih hmem) (le_max_right _ _)

/-- A successfully fetched page has at most `maxLinks site` links. -/
theorem fetch_links_le (site : Site) (u : Url) (ct : String) (d : Soup)
    (h : fetchSite site u = .ok ct d) : d.links.length ≤ maxLinks site := by
  unfold fetchSite at h
  cases hl : List.lookup u site with
  | none => rw [hl] at h; simp [Option.getD] at h
  | some r =>
    rw [hl] at h
    simp only [Option.getD] at h
    subst h
    obtain ⟨l1, l2, hsite, -⟩ := List.lookup_eq_some_iff.mp hl
    have hm : (u, FetchResult.ok ct d) ∈ site := by
      rw [hsite]; simp
    simpa [linksOf] using mem_linksOf_le site u _ hm

/-- Arithmetic kernel of the measure-decrease argument. -/
theorem measure_arith (k K tlen Flen L : Nat) (h1 : tlen ≤ (Flen - 1) + L)
    (h2 : L + 1 ≤ K) (h3 : 1 ≤ Flen) : k * K + tlen < (k + 1) * K + Flen := by
  have h4 : tlen < K + Flen := by omega
  calc k * K + tlen < k * K + (K + Flen) := Nat.add_lt_add_left h4 _
    _ = (k + 1) * K + Flen := by ring

/-- Every step of the crawl loop strictly decreases the measure: a
skipped, failed or non-HTML pop removes one frontier entry and adds
none; a successful pop consumes one unit of the page budget and adds
at most `maxLinks site` frontier entries. -/
theorem measure_decreases (base : String) (site : Site) (m : Nat)
    (s t : CrawlState) (hstep : Step base site m s t) :
    cMeasure site m t < cMeasure site m s := by
  obtain ⟨hne, hlt, u, hu, rfl⟩ := hstep
  have hflen : 1 ≤ s.frontier.length := List.length_pos.mpr hne
  have herase : (s.frontier.erase u).length = s.frontier.length - 1 :=
    List.length_erase_of_mem hu
  rw [iterBody]
  by_cases hv : u ∈ s.visited
  · rw [if_pos hv]
    simp only [cMeasure]
    omega
  · rw [if_neg hv]
    cases hfetch : fetchSite site u with
    | err =>
      simp only [cMeasure]
      omega
    | ok ct d =>
      dsimp only
      by_cases hct : isHtmlContentType ct = false
      · rw [if_pos hct]
        simp only [cMeasure]
        omega
      · rw [if_neg hct]
        simp only [cMeasure, List.length_cons]
        have h1 := offerLinks_length base u (u :: s.visited) d.links (s.frontier.erase u)
        have h2 := fetch_links_le site u ct d hfetch
        have hmv : m - s.visited.length = (m - (s.visited.length + 1)) + 1 := by omega
        rw [hmv]
        exact measure_arith _ _ _ _ d.links.length (by omega) (by omega) hflen

/-- A step out of `s` exists exactly when the loop guard of line 107
holds at `s`. -/
theorem step_iff_guard (base : String) (site : Site) (m : Nat) (s : CrawlState) :
    (∃ t, Step base site m s t) ↔ (s.frontier ≠ [] ∧ s.visited.length < m) := by
  constructor
  · rintro ⟨t, hne, hlt, -⟩
    exact ⟨hne, hlt⟩
  · rintro ⟨hne, hlt⟩
    cases hf : s.frontier with
    | nil => exact absurd hf hne
    | cons u rest =>
      exact ⟨iterBody base site u s, hne, hlt, u,
        by rw [hf]; exact List.mem_cons_self u rest, rfl⟩

/-- One crawl step preserves frontier/visited disjointness. -/
theorem disj_step (base : String) (site : Site) (m : Nat) (s t : CrawlState)
    (hinv : DisjInv s) (hstep : Step base site m s t) : DisjInv t := by
  obtain ⟨hnd, hdisj⟩ := hinv
  obtain ⟨-, -, u, hu, rfl⟩ := hstep
  rw [iterBody]
  by_cases hv : u ∈ s.visited
  · rw [if_pos hv]
    exact ⟨hnd.erase u, fun w hw hmem => hdisj w hw (List.mem_of_mem_erase hmem)⟩
  · rw [if_neg hv]
    cases hfetch : fetchSite site u with
    | err =>
      exact ⟨hnd.erase u, fun w hw hmem => hdisj w hw (List.mem_of_mem_erase hmem)⟩
    | ok ct d =>
      dsimp only
      by_cases hct : isHtmlContentType ct = false
      · rw [if_pos hct]
        exact ⟨hnd.erase u, fun w hw hmem => hdisj w hw (List.mem_of_mem_erase hmem)⟩
      · rw [if_neg hct]
        refine ⟨offerLinks_nodup _ _ _ _ _ (hnd.erase u), ?_⟩
        intro w hw hmem
        rcases (offerLinks_mem _ _ _ _ _ _).mp hmem with hmem1 | ⟨-, hnin, -⟩
        · rcases List.mem_cons.mp hw with rfl | hw2
          · exact hnd.not_mem_erase hmem1
          · exact hdisj w hw2 (List.mem_of_mem_erase hmem1)
        · exact hnin hw

/-! The claims. -/

/-- Claim C1, counterexample: `http://h/d.json` satisfies the spec's
scoping rule (same host, http scheme, path ending `.json` which is not
in the denylist), is freshly discovered from the seed page and not yet
seen, yet `_is_valid_url` rejects it because `.js` occurs as a
substring of the URL string, so it is not enqueued. -/
theorem scope_substring_cex :
    specInScope "h" urlJson = true ∧
    (denylist.all (fun ext => !strEndsWith urlJson.path ext)) = true ∧
    is_valid_url "h" urlJson = false ∧
    urljoin urlS relJson = urlJson ∧ relJson ∈ (soupMk [relJson]).links ∧
    urlJson ∉ (initState urlS).visited ∧ urlJson ∉ (initState urlS).frontier ∧
    urlJson ∉ (iterBody "h" siteJson urlS (initState urlS)).frontier := by
  decide

/-- Claim C1, amended: after a successful HTML fetch of `u`, a URL `v`
is in the frontier iff it survived the pop, or it is the resolution of
some href of the page, passes `_is_valid_url` (same host, http/https
scheme, and *no denylisted extension occurs as a substring of the full
URL string*), and is not in the visited set (which now includes `u`). -/
theorem enqueue_characterization (base : String) (site : Site) (u v : Url)
    (s : CrawlState) (ct : String) (d : Soup)
    (hf : fetchSite site u = .ok ct d) (hct : isHtmlContentType ct = true)
    (hnv : u ∉ s.visited) :
    v ∈ (iterBody base site u s).frontier ↔
      v ∈ s.frontier.erase u ∨
        (is_valid_url base v = true ∧ v ∉ u :: s.visited ∧
          ∃ href ∈ d.links, urljoin u href = v) := by
  rw [iterBody, if_neg hnv, hf]
  dsimp only
  rw [if_neg (by simp [hct])]
  exact offerLinks_mem base u (u :: s.visited) d.links (s.frontier.erase u) v

/-- Witness for C1's amended theorem at a concrete input: processing
the seed of `siteRetry` enqueues `http://h/a`. -/
theorem enqueue_characterization_witness :
    urlA ∈ (iterBody "h" siteRetry urlS (initState urlS)).frontier ↔
      urlA ∈ (initState urlS).frontier.erase urlS ∨
        (is_valid_url "h" urlA = true ∧ urlA ∉ urlS :: (initState urlS).visited ∧
          ∃ href ∈ (soupMk [relA, relB]).links, urljoin urlS href = urlA) :=
  enqueue_characterization "h" siteRetry urlS urlA (initState urlS) "text/html"
    (soupMk [relA, relB]) (by decide) (by decide) (by decide)

/-- Claim C2, counterexample: a page at `http://h/` with eleven
relative anchors.  Every resolved href has the page's own host, so the
spec's resolved-external count is 0, yet the code emits the
"High Number of External Links (11)" issue because it compares the raw
unresolved netloc of each href with the base host. -/
theorem external_links_cex :
    linkIssuesOf "h" soupExt = ["High Number of External Links (11)"] ∧
    specExternalCount urlS soupExt = 0 ∧ ¬ 10 < specExternalCount urlS soupExt := by
  decide

/-- Claim C2, amended: the Link issue is emitted iff the count of
anchors whose *raw, unresolved* href netloc differs from the base host
exceeds 10, its text includes that count, and the issue reaches the
page record exactly when it is non-empty. -/
theorem external_links_iff (base url : String) (d : Soup) :
    (linkIssuesOf base d ≠ [] ↔ 10 < rawExternalCount base d) ∧
    (10 < rawExternalCount base d →
      linkIssuesOf base d =
        ["High Number of External Links (" ++ toString (rawExternalCount base d) ++ ")"]) ∧
    (("Link Issues", IssueVal.listV (linkIssuesOf base d)) ∈
        get_page_seo_issues base url d ↔ linkIssuesOf base d ≠ []) := by
  refine ⟨?_, ?_, ?_⟩
  · rw [linkIssuesOf]
    by_cases hl : 10 < rawExternalCount base d
    · simp [hl]
    · simp [hl]
  · intro hl
    rw [linkIssuesOf, if_pos hl]
  · rw [get_page_seo_issues, List.mem_filter]
    simp [IssueVal.truthy, List.isEmpty_iff]

/-- Witness for C2's amended theorem at a concrete input: the page
with eleven raw-external anchors gets the issue with count 11. -/
theorem external_links_iff_witness :
    linkIssuesOf "h" soupExt =
      ["High Number of External Links (" ++ toString (rawExternalCount "h" soupExt) ++ ")"] :=
  (external_links_iff "h" "http://h/" soupExt).2.1 (by decide)

/-- Claim C3, counterexample: in `siteRetry`, fetching `http://h/a`
raises a network error at its first fetch, page `http://h/b` later
links to it again, and the run fetches it a second time: the fetch
trace is seed, a, b, a. -/
theorem failed_retry_cex :
    fetchSite siteRetry urlA = FetchResult.err ∧
    (crawlRun "h" siteRetry 10 10 (initState urlS)).fetchLog =
      [urlS, urlA, urlB, urlA] := by
  decide

/-- Claim C3, amended: a failed fetch removes the URL from the
frontier and changes nothing else — in particular the URL is not
marked visited — so it is not retried unless a later page's links
rediscover it. -/
theorem failed_fetch_abandons (base : String) (site : Site) (u : Url)
    (s : CrawlState) (hnv : u ∉ s.visited) (herr : fetchSite site u = .err) :
    iterBody base site u s =
      { s with frontier := s.frontier.erase u, fetchLog := s.fetchLog ++ [u] } := by
  rw [iterBody, if_neg hnv, herr]

/-- Witness for C3's amended theorem at a concrete input. -/
theorem failed_fetch_abandons_witness :
    iterBody "h" siteRetry urlA (initState urlS) =
      { initState urlS with
        frontier := (initState urlS).frontier.erase urlA,
        fetchLog := (initState urlS).fetchLog ++ [urlA] } :=
  failed_fetch_abandons "h" siteRetry urlA (initState urlS) (by decide) (by decide)

/-- Claim C4, counterexample: with `maxPages = 10`, the run over
`sitePdf` (one HTML seed linking to eleven PDF pages) completes with
an empty frontier and only one visited URL, yet performs fetches on
twelve distinct URLs — more than `maxPages`. -/
theorem max_pages_cex :
    (crawlRun "h" sitePdf 10 15 (initState urlS)).frontier = [] ∧
    (crawlRun "h" sitePdf 10 15 (initState urlS)).visited.length = 1 ∧
    10 < (crawlRun "h" sitePdf 10 15 (initState urlS)).fetchLog.dedup.length := by
  decide

/-- Claim C4, amended: the visited set never exceeds `maxPages` along
any step, and the loop continues exactly while the frontier is
non-empty and the visited count is below `maxPages`; the number of
*fetched* URLs is what can exceed the cap, since failed and non-HTML
fetches are never added to the visited set. -/
theorem max_pages_bound (base : String) (site : Site) (m : Nat) (s t : CrawlState)
    (hstep : Step base site m s t) :
    t.visited.length ≤ m ∧
      ∀ r : CrawlState, (∃ q, Step base site m r q) ↔
        (r.frontier ≠ [] ∧ r.visited.length < m) := by
  refine ⟨?_, step_iff_guard base site m⟩
  obtain ⟨-, hlt, u, hu, rfl⟩ := hstep
  rw [iterBody]
  by_cases hv : u ∈ s.visited
  · rw [if_pos hv]
    exact le_of_lt hlt
  · rw [if_neg hv]
    cases hfetch : fetchSite site u with
    | err => exact le_of_lt hlt
    | ok ct d =>
      dsimp only
      by_cases hct : isHtmlContentType ct = false
      · rw [if_pos hct]
        exact le_of_lt hlt
      · rw [if_neg hct]
        simp only [List.length_cons]
        omega

/-- Witness for C4's amended theorem at a concrete input. -/
theorem max_pages_bound_witness :
    (iterBody "h" siteRetry urlS (initState urlS)).visited.length ≤ 10 ∧
      ∀ r : CrawlState, (∃ q, Step "h" siteRetry 10 r q) ↔
        (r.frontier ≠ [] ∧ r.visited.length < 10) :=
  max_pages_bound "h" siteRetry 10 (initState urlS)
    (iterBody "h" siteRetry urlS (initState urlS))
    ⟨by decide, by decide, urlS, by decide, rfl⟩

/-- Claim C5, counterexample: a document with one heading at each of
the levels H1, H2, H3 (and no H4) — the claim says no
heading-hierarchy issue is emitted, but the analyzer emits
"Missing H4". -/
theorem heading_cex :
    1 ≤ soupHead.h1 ∧ 1 ≤ soupHead.h2 ∧ 1 ≤ soupHead.h3 ∧
    headingIssuesOf soupHead = ["Potential Heading Hierarchy Issue (Missing H4)"] := by
  decide

/-- Claim C5, amended: a document with H1 and H3 but no H2 gets a
"Missing H2" issue; a document with at least one heading at *every*
level H1 through H6 gets no heading-hierarchy gap issue. -/
theorem heading_hierarchy (d : Soup) :
    (1 ≤ d.h1 → d.h2 = 0 → 1 ≤ d.h3 →
      "Potential Heading Hierarchy Issue (Missing H2)" ∈ headingIssuesOf d) ∧
    (1 ≤ d.h1 → 1 ≤ d.h2 → 1 ≤ d.h3 → 1 ≤ d.h4 → 1 ≤ d.h5 → 1 ≤ d.h6 →
      headingGapIssues d = []) := by
  constructor
  · intro h1 h2 h3
    rw [headingIssuesOf]
    refine List.mem_append_right _ ?_
    rw [headingGapIssues]
    refine List.mem_filterMap.mpr ⟨1, by decide, ?_⟩
    rw [if_pos (by simp [Soup.hcount]; omega)]
    rfl
  · intro h1 h2 h3 h4 h5 h6
    rw [headingGapIssues,
      show List.range' 1 5 = [1, 2, 3, 4, 5] from rfl]
    simp only [List.filterMap_cons, List.filterMap_nil, Soup.hcount]
    rw [if_neg (by omega), if_neg (by omega), if_neg (by omega),
      if_neg (by omega), if_neg (by omega)]

/-- Witness for C5's amended theorem at concrete inputs. -/
theorem heading_hierarchy_witness :
    "Potential Heading Hierarchy Issue (Missing H2)" ∈ headingIssuesOf soupH2gap ∧
    headingGapIssues (soupMk []) = [] :=
  ⟨(heading_hierarchy soupH2gap).1 (by decide) (by decide) (by decide),
   (heading_hierarchy (soupMk [])).2 (by decide) (by decide) (by decide)
     (by decide) (by decide) (by decide)⟩

/-- Claim C6 (confirmed): the crawl loop terminates on every finite
site, cyclic links included — the step relation (with its arbitrary
pop order) is well-founded, and a state admits a step exactly while
the frontier is non-empty and the page cap is not reached, so every
run reaches such a terminal state. -/
theorem crawl_loop_terminates (base : String) (site : Site) (m : Nat) :
    WellFounded (fun t s : CrawlState => Step base site m s t) ∧
    ∀ s : CrawlState, (∃ t, Step base site m s t) ↔
      (s.frontier ≠ [] ∧ s.visited.length < m) := by
  refine ⟨Subrelation.wf (r := InvImage Nat.lt (cMeasure site m)) ?_
    (InvImage.wf _ Nat.lt_wfRel.wf), step_iff_guard base site m⟩
  intro t s hst
  exact measure_decreases base site m s t hst

/-- Claim C7 (confirmed): the initial crawl state has disjoint
frontier and visited sets, and every step preserves disjointness: no
URL is ever in both `to_visit_urls` and `visited_urls`, because a
popped URL is removed before being marked visited and offered links
are filtered against both sets. -/
theorem offer_disjoint (base : String) (site : Site) (m : Nat) (seed : Url)
    (s t : CrawlState) (hinv : DisjInv s) (hstep : Step base site m s t) :
    DisjInv (initState seed) ∧ DisjInv t := by
  refine ⟨⟨List.nodup_singleton seed, ?_⟩, disj_step base site m s t hinv hstep⟩
  intro u hu
  simp [initState] at hu

/-- Witness for C7's theorem at a concrete input. -/
theorem offer_disjoint_witness :
    DisjInv (initState urlS) ∧
      DisjInv (iterBody "h" siteRetry urlS (initState urlS)) :=
  offer_disjoint "h" siteRetry 10 urlS (initState urlS)
    (iterBody "h" siteRetry urlS (initState urlS)) (by decide)
    ⟨by decide, by decide, urlS, by decide, rfl⟩

/-- Claim C8 (confirmed): for a successfully fetched and parsed HTML
page on which no category produced an issue, the record still contains
the URL entry (so it is truthy) and is appended to `seo_results`; and
each category key appears in the record exactly when that category
produced at least one issue string. -/
theorem record_emission (base : String) (site : Site) (u : Url) (s : CrawlState)
    (ct : String) (d : Soup) (hne : urlString u ≠ "")
    (hf : fetchSite site u = .ok ct d) (hct : isHtmlContentType ct = true)
    (hnv : u ∉ s.visited) :
    ((titleIssues d.title = [] ∧ metaIssues d.metaDesc = [] ∧ headingIssuesOf d = [] ∧
        linkIssuesOf base d = [] ∧ imageIssuesOf d = []) →
      get_page_seo_issues base (urlString u) d = [("URL", IssueVal.urlV (urlString u))] ∧
      (iterBody base site u s).results =
        s.results ++ [[("URL", IssueVal.urlV (urlString u))]]) ∧
    (("Title Issues" ∈ (get_page_seo_issues base (urlString u) d).map Prod.fst) ↔
      titleIssues d.title ≠ []) ∧
    (("Meta Description Issues" ∈ (get_page_seo_issues base (urlString u) d).map Prod.fst) ↔
      metaIssues d.metaDesc ≠ []) ∧
    (("Heading Structure Issues" ∈ (get_page_seo_issues base (urlString u) d).map Prod.fst) ↔
      headingIssuesOf d ≠ []) ∧
    (("Link Issues" ∈ (get_page_seo_issues base (urlString u) d).map Prod.fst) ↔
      linkIssuesOf base d ≠ []) ∧
    (("Image SEO Issues" ∈ (get_page_seo_issues base (urlString u) d).map Prod.fst) ↔
      imageIssuesOf d ≠ []) := by
  refine ⟨?_, ?_, ?_, ?_, ?_, ?_⟩
  · rintro ⟨hT, hM, hH, hL, hI⟩
    have hrec : get_page_seo_issues base (urlString u) d =
        [("URL", IssueVal.urlV (urlString u))] := by
      rw [get_page_seo_issues]
      have hb : (urlString u != "") = true := by simp [hne]
      simp [List.filter, hT, hM, hH, hL, hI, IssueVal.truthy, hb]
    refine ⟨hrec, ?_⟩
    rw [iterBody, if_neg hnv, hf]
    dsimp only
    rw [if_neg (by simp [hct])]
    dsimp only
    rw [hrec]
    simp
  · rw [get_page_seo_issues]
    simp [List.mem_map, List.mem_filter, IssueVal.truthy, List.isEmpty_iff]
  · rw [get_page_seo_issues]
    simp [List.mem_map, List.mem_filter, IssueVal.truthy, List.isEmpty_iff]
  · rw [get_page_seo_issues]
    simp [List.mem_map, List.mem_filter, IssueVal.truthy, List.isEmpty_iff]
  · rw [get_page_seo_issues]
    simp [List.mem_map, List.mem_filter, IssueVal.truthy, List.isEmpty_iff]
  · rw [get_page_seo_issues]
    simp [List.mem_map, List.mem_filter, IssueVal.truthy, List.isEmpty_iff]

/-- Witness for C8's theorem at a concrete input: page `http://h/b` of
`siteRetry` has no issues, and its URL-only record is appended. -/
theorem record_emission_witness :
    get_page_seo_issues "h" (urlString urlB) (soupMk [relA]) =
      [("URL", IssueVal.urlV (urlString urlB))] ∧
    (iterBody "h" siteRetry urlB (initState urlS)).results =
      (initState urlS).results ++ [[("URL", IssueVal.urlV (urlString urlB))]] :=
  (record_emission "h" siteRetry urlB (initState urlS) "text/html" (soupMk [relA])
    (by decide) (by decide) (by decide) (by decide)).1
    ⟨by decide, by decide, by decide, by decide, by decide⟩

/-- Claim C9 (confirmed): for a title whose text is not
whitespace-only, a length of exactly 10 or 60 produces no title-length
issue, while a length of 9 or 61 produces the length issue whose text
includes the current length. -/
theorem title_length_boundary (t : String) (h : pyStrip t ≠ "") :
    ((t.length = 10 ∨ t.length = 60) → titleIssues (some t) = []) ∧
    ((t.length = 9 ∨ t.length = 61) → titleIssues (some t) =
      ["Title Tag Length Issue (Current: " ++ toString t.length ++ " chars)"]) := by
  constructor
  · rintro (h10 | h60)
    · rw [titleIssues, if_neg h, if_neg (by omega)]
    · rw [titleIssues, if_neg h, if_neg (by omega)]
  · rintro (h9 | h61)
    · rw [titleIssues, if_neg h, if_pos (by omega)]
    · rw [titleIssues, if_neg h, if_pos (by omega)]

/-- Witness for C9's theorem at concrete inputs: a 10-character title
yields no issue, a 9-character one yields the length issue. -/
theorem title_length_boundary_witness :
    titleIssues (some "0123456789") = [] ∧
    titleIssues (some "012345678") =
      ["Title Tag Length Issue (Current: " ++ toString ("012345678".length) ++ " chars)"] :=
  ⟨(title_length_boundary "0123456789" (by decide)).1 (Or.inl (by decide)),
   (title_length_boundary "012345678" (by decide)).2 (Or.inl (by decide))⟩

/-- Claim C10 (confirmed): a fetch whose Content-Type is not HTML only
removes the URL from the frontier (and extends the fetch trace); the
visited set and results are untouched, so the page does not count
toward the `maxPages` ceiling and can be fetched again if later
rediscovered. -/
theorem nonhtml_skip (base : String) (site : Site) (u : Url) (s : CrawlState)
    (ct : String) (d : Soup) (hnv : u ∉ s.visited)
    (hf : fetchSite site u = .ok ct d) (hct : isHtmlContentType ct = false) :
    iterBody base site u s =
      { s with frontier := s.frontier.erase u, fetchLog := s.fetchLog ++ [u] } := by
  rw [iterBody, if_neg hnv, hf]
  dsimp only
  rw [if_pos hct]

/-- Witness for C10's theorem at a concrete input: a PDF page of
`sitePdf`. -/
theorem nonhtml_skip_witness :
    iterBody "h" sitePdf (urlP 0) (initState urlS) =
      { initState urlS with
        frontier := (initState urlS).frontier.erase (urlP 0),
        fetchLog := (initState urlS).fetchLog ++ [urlP 0] } :=
  nonhtml_skip "h" sitePdf (urlP 0) (initState urlS) "application/pdf" (soupMk [])
    (by decide) (by decide) (by decide)

end SeoCrawler
